import Mathlib

/-!
Verification of `mkramdisk` (src/src/main.rs): a shallow embedding of its
pure helpers (size parsing, filesystem resolution, volume-name
sanitization, argument parsing) and of the provisioning orchestrator
`create_ramdisk`, with the external OS collaborators (hdiutil attach,
diskutil erasevolume, filesystem existence checks) abstracted into an
environment record. Machine integers are modelled as `Nat` with explicit
`2 ^ 64` bounds where Rust uses `u64`; Rust character classes and case
maps are modelled by Lean's ASCII `Char` predicates.
-/

namespace Mkramdisk

/-- Rust `str::to_uppercase` (ASCII model), applied characterwise. -/
def rustToUpper (s : String) : String := ⟨s.data.map Char.toUpper⟩

/-- Rust `str::to_lowercase` (ASCII model), applied characterwise. -/
def rustToLower (s : String) : String := ⟨s.data.map Char.toLower⟩

/-- Rust `str::trim` on a character list: drop whitespace from both ends. -/
def trimList (l : List Char) : List Char :=
  ((l.dropWhile Char.isWhitespace).reverse.dropWhile Char.isWhitespace).reverse

/-- Rust `str::trim`. -/
def rustTrim (s : String) : String := ⟨trimList s.data⟩

/-- Rust `str::starts_with('-')`: whether the first character is a dash. -/
def startsWithDash (s : String) : Bool :=
  match s.data with
  | [] => false
  | c :: _ => c == '-'

/-- `Except.isOk` as used to state success/failure of the Rust `Result`s. -/
def exceptIsOk {ε α : Type} : Except ε α → Bool
  | .ok _ => true
  | .error _ => false

/-- The `Config` struct of main.rs. -/
structure Config where
  size : String
  name : String
  filesystem : String
  verbose : Bool
deriving DecidableEq, Repr

/-- `Config::default()` from main.rs. -/
def Config.defaultCfg : Config :=
  { size := "", name := "RAMDisk", filesystem := "apfs", verbose := false }

/-- The number-part split of `size_to_sectors`: the prefix of the uppercased
input before the first alphabetic character (the whole string if none). -/
def numberPart (s : String) : List Char :=
  (s.data.map Char.toUpper).takeWhile (fun c => !c.isAlpha)

/-- The suffix split of `size_to_sectors`: the rest of the uppercased input
from the first alphabetic character on (empty if none). -/
def suffixPart (s : String) : List Char :=
  (s.data.map Char.toUpper).dropWhile (fun c => !c.isAlpha)

/-- Rust `u64::from_str` (`number_str.parse::<u64>()`): an optional leading
`+`, then one or more ASCII digits, value below `2 ^ 64`. -/
def parseRustU64 (l : List Char) : Option Nat :=
  let digits := match l with
    | '+' :: rest => rest
    | _ => l
  if digits.isEmpty then none
  else if digits.all Char.isDigit then
    let n := digits.foldl (fun a c => a * 10 + (c.toNat - 48)) 0
    if n < 2 ^ 64 then some n else none
  else none

/-- The binary multiplier of the suffix match in `size_to_sectors`;
`none` for an unrecognized suffix. -/
def unitMultiplier (suffix : List Char) : Option Nat :=
  if suffix = [] ∨ suffix = ['B'] then some 1
  else if suffix = ['K'] ∨ suffix = ['K', 'B'] then some 1024
  else if suffix = ['M'] ∨ suffix = ['M', 'B'] then some (1024 * 1024)
  else if suffix = ['G'] ∨ suffix = ['G', 'B'] then some (1024 * 1024 * 1024)
  else if suffix = ['T'] ∨ suffix = ['T', 'B'] then some (1024 * 1024 * 1024 * 1024)
  else none

/-- `size_to_sectors` from main.rs: uppercase, split at the first alphabetic
character, parse the number, reject zero, apply the suffix multiplier with a
`u64` overflow check, divide by 512, reject a zero sector count. -/
def size_to_sectors (s : String) : Except String Nat :=
  match parseRustU64 (numberPart s) with
  | none => .error ("Invalid number in size: " ++ String.mk (numberPart s))
  | some number =>
    if number = 0 then .error "Size cannot be zero"
    else
      match unitMultiplier (suffixPart s) with
      | none => .error ("Unknown size suffix: " ++ String.mk (suffixPart s))
      | some m =>
        if number * m < 2 ^ 64 then
          if number * m / 512 = 0 then .error "Size too small (minimum 512 bytes)"
          else .ok (number * m / 512)
        else .error "Size too large"

deriving instance DecidableEq for Except

/-- The error message of `validate_filesystem` and `get_diskutil_format`. -/
def unsupportedFsMsg (filesystem : String) : String :=
  "Unsupported filesystem: " ++ filesystem ++
    "\nSupported filesystems: apfs, hfs+, fat32, exfat"

/-- `validate_filesystem` from main.rs: lowercase, accept the six aliases. -/
def validate_filesystem (filesystem : String) : Except String Unit :=
  let l := rustToLower filesystem
  if l = "apfs" ∨ l = "hfs+" ∨ l = "hfs" ∨ l = "fat32" ∨ l = "msdos" ∨ l = "exfat"
  then .ok ()
  else .error (unsupportedFsMsg filesystem)

/-- `get_diskutil_format` from main.rs: lowercase, map each alias to the
canonical diskutil label. -/
def get_diskutil_format (filesystem : String) : Except String String :=
  let l := rustToLower filesystem
  if l = "apfs" then .ok "APFS"
  else if l = "hfs+" ∨ l = "hfs" then .ok "HFS+"
  else if l = "fat32" ∨ l = "msdos" then .ok "MS-DOS FAT32"
  else if l = "exfat" then .ok "ExFAT"
  else .error (unsupportedFsMsg filesystem)

/-- The character filter of `sanitize_volume_name`: alphanumeric,
underscore, hyphen, or space. -/
def validNameChar (c : Char) : Bool :=
  c.isAlphanum || c == '_' || c == '-' || c == ' '

/-- `sanitize_volume_name` from main.rs: keep only valid characters, then
trim whitespace from both ends. -/
def sanitize_volume_name (s : String) : String :=
  ⟨trimList (s.data.filter validNameChar)⟩

/-- Outcome of the argument loop in `parse_args`: `-h`/`--help` exits the
process (modelled as `help`), otherwise the loop ends with a config or an
error. -/
inductive LoopOutcome where
  | help : LoopOutcome
  | done : Config → LoopOutcome
  | fail : String → LoopOutcome
deriving DecidableEq, Repr

/-- Outcome of `parse_args`: help display, an accepted config, or an
error message. -/
inductive ParseOutcome where
  | help : ParseOutcome
  | ok : Config → ParseOutcome
  | error : String → ParseOutcome
deriving DecidableEq, Repr

/-- The `while i < args.len()` loop of `parse_args`, as recursion over the
remaining arguments. -/
def parseLoop : List String → Config → LoopOutcome
  | [], config => .done config
  | a :: rest, config =>
    if a = "-h" ∨ a = "--help" then .help
    else if a = "-v" ∨ a = "--verbose" then
      parseLoop rest { config with verbose := true }
    else if a = "-f" ∨ a = "--format" then
      match rest with
      | [] => .fail "Format option requires a value"
      | v :: rest2 => parseLoop rest2 { config with filesystem := v }
    else if startsWithDash a then .fail ("Unknown option: " ++ a)
    else if config.size = "" then parseLoop rest { config with size := a }
    else if config.name = "RAMDisk" then parseLoop rest { config with name := a }
    else .fail "Too many arguments"

/-- `parse_args` from main.rs: run the loop from the default config, then
require a non-empty size, validate the filesystem, and sanitize the name. -/
def parse_args (args : List String) : ParseOutcome :=
  match parseLoop args Config.defaultCfg with
  | .help => .help
  | .fail e => .error e
  | .done config =>
    if config.size = "" then .error "Size argument is required"
    else
      match validate_filesystem config.filesystem with
      | .error e => .error e
      | .ok _ =>
        .ok { config with name := sanitize_volume_name config.name }

/-- The polling loop of `wait_for_mount`: `i` is the index of the next
attempt, the second argument the number of attempts left; the environment
`e` gives the mount point's existence at each attempt. -/
def waitLoop (e : Nat → Bool) : Nat → Nat → Bool
  | _, 0 => false
  | i, n + 1 => if e i then true else waitLoop e (i + 1) n

/-- `wait_for_mount` from main.rs: up to `max_attempts` existence checks,
true on first detection. The 100ms sleep between attempts is abstracted
into the successive attempt indices of `e`. -/
def wait_for_mount (e : Nat → Bool) (max_attempts : Nat) : Bool :=
  waitLoop e 0 max_attempts

/-- The number of existence checks the `wait_for_mount` loop performs
(instrumentation of the same loop). -/
def waitChecksLoop (e : Nat → Bool) : Nat → Nat → Nat
  | _, 0 => 0
  | i, n + 1 => if e i then 1 else 1 + waitChecksLoop e (i + 1) n

/-- Number of existence checks performed by `wait_for_mount`. -/
def wait_for_mount_checks (e : Nat → Bool) (max_attempts : Nat) : Nat :=
  waitChecksLoop e 0 max_attempts

/-- `cleanup_device` from main.rs: detaches the device; modelled as the
event it emits (the detached handle). Its own errors are ignored. -/
def cleanup_device (device : String) : List String := [device]

/-- The observable output of one OS command (`std::process::Output`):
exit-status success, stdout and stderr as `some` UTF-8 text or `none` for
invalid UTF-8. -/
structure ProcOutput where
  success : Bool
  stdout : Option String
  stderr : Option String
deriving DecidableEq, Repr

/-- The environment of one `create_ramdisk` run: what the external OS
collaborators would answer at each step. `attach`/`diskutil` are
`.error msg` when the command cannot be spawned (`Command::output()`
returning `Err`), `.ok out` when it ran. `mountExistsAt i` is the mount
point's existence at poll attempt `i`; `verifyExists` its existence at the
final re-check. -/
structure Env where
  mountExistsPre : Bool
  attach : Except String ProcOutput
  diskutil : Except String ProcOutput
  mountExistsAt : Nat → Bool
  verifyExists : Bool

/-- `create_ramdisk` from main.rs, with OS effects drawn from `env`:
returns the run's `Result` together with the list of detach events issued
via `cleanup_device`. -/
def create_ramdisk (config : Config) (env : Env) : Except String Unit × List String :=
  match size_to_sectors config.size with
  | .error e => (.error e, [])
  | .ok _sectors =>
    let mount_point := "/Volumes/" ++ config.name
    if env.mountExistsPre then
      (.error ("Volume \x27" ++ config.name ++ "\x27 already exists at " ++ mount_point), [])
    else
      match env.attach with
      | .error e => (.error ("Failed to execute hdiutil: " ++ e), [])
      | .ok out =>
        if !out.success then
          (.error ("Failed to create RAM disk: " ++
            rustTrim (out.stderr.getD "Unknown error")), [])
        else
          match out.stdout with
          | none => (.error "Invalid UTF-8 in hdiutil output", [])
          | some so =>
            let device := rustTrim so
            if device = "" then (.error "No device returned by hdiutil", [])
            else
              match get_diskutil_format config.filesystem with
              | .error e => (.error e, [])
              | .ok _diskutil_format =>
                match env.diskutil with
                | .error e => (.error ("Failed to execute diskutil: " ++ e), [])
                | .ok fout =>
                  if !fout.success then
                    let stderr :=
                      if config.verbose then "Check verbose output above for details"
                      else rustTrim (fout.stderr.getD "Unknown error")
                    (.error ("Failed to format RAM disk: " ++ stderr),
                      cleanup_device device)
                  else if !(wait_for_mount env.mountExistsAt 50) then
                    (.error "RAM disk was formatted but failed to mount properly",
                      cleanup_device device)
                  else if env.verifyExists then
                    (.ok (), [])
                  else
                    (.error "RAM disk creation completed but verification failed",
                      cleanup_device device)

/-! ## Theorems -/

/-- C2: the size parser maps "1024", "1K", "1KB" to 2 sectors, "1M", "1MB"
to 2048, "1G", "1GB" to 2097152, and in general every accepted token yields
the parsed number times the suffix multiplier, divided by 512 truncating. -/
theorem C2_size_parser_table :
    size_to_sectors "1024" = .ok 2 ∧ size_to_sectors "1K" = .ok 2 ∧
    size_to_sectors "1KB" = .ok 2 ∧ size_to_sectors "1M" = .ok 2048 ∧
    size_to_sectors "1MB" = .ok 2048 ∧ size_to_sectors "1G" = .ok 2097152 ∧
    size_to_sectors "1GB" = .ok 2097152 ∧
    ∀ s k, size_to_sectors s = .ok k →
      ∃ n m, parseRustU64 (numberPart s) = some n ∧
        unitMultiplier (suffixPart s) = some m ∧ k = n * m / 512 := by
  refine ⟨by decide, by decide, by decide, by decide, by decide, by decide, by decide, ?_⟩
  intro s k h
  unfold size_to_sectors at h
  split at h
  · simp at h
  next n hp =>
    split at h
    · simp at h
    next hz =>
      split at h
      · simp at h
      next m hm =>
        split at h
        · split at h
          · simp at h
          · exact ⟨n, m, hp, hm, by simpa using h.symm⟩
        · simp at h

/-- C2 witness: the general clause applied at the concrete token "2K". -/
theorem C2_size_parser_table_witness :
    ∃ n m, parseRustU64 (numberPart "2K") = some n ∧
      unitMultiplier (suffixPart "2K") = some m ∧ 4 = n * m / 512 :=
  C2_size_parser_table.2.2.2.2.2.2.2 "2K" 4 (by decide)

/-- C10: the zero check of `size_to_sectors` precedes suffix validation:
whenever the number part parses to zero, the result is the zero-size error,
whatever the suffix. -/
theorem C10_zero_checked_before_suffix (s : String)
    (h : parseRustU64 (numberPart s) = some 0) :
    size_to_sectors s = .error "Size cannot be zero" := by
  unfold size_to_sectors
  rw [h]
  exact rfl

/-- C10 witness: "0X" reports zero size, not an unknown suffix. -/
theorem C10_zero_checked_before_suffix_witness :
    parseRustU64 (numberPart "0X") = some 0 ∧
    size_to_sectors "0X" = .error "Size cannot be zero" :=
  ⟨by decide, C10_zero_checked_before_suffix "0X" (by decide)⟩

/-- C5 counterexample: re-resolving the canonical label of "fat32" does not
agree with resolving "fat32" — "MS-DOS FAT32" is not an accepted alias. -/
theorem C5_resolve_twice_fat32_counterexample :
    ¬ ((get_diskutil_format "fat32").bind get_diskutil_format =
      get_diskutil_format "fat32") := by decide

/-- C5 amended: resolution composed with itself agrees with resolution on
the aliases whose canonical label is itself an alias (apfs, hfs+, hfs,
exfat); for fat32 and msdos the canonical label "MS-DOS FAT32" is rejected
on re-resolution. -/
theorem C5_resolve_idempotent_amended :
    (get_diskutil_format "apfs").bind get_diskutil_format = get_diskutil_format "apfs" ∧
    (get_diskutil_format "hfs+").bind get_diskutil_format = get_diskutil_format "hfs+" ∧
    (get_diskutil_format "hfs").bind get_diskutil_format = get_diskutil_format "hfs" ∧
    (get_diskutil_format "exfat").bind get_diskutil_format = get_diskutil_format "exfat" ∧
    (get_diskutil_format "fat32").bind get_diskutil_format =
      .error (unsupportedFsMsg "MS-DOS FAT32") ∧
    (get_diskutil_format "msdos").bind get_diskutil_format =
      .error (unsupportedFsMsg "MS-DOS FAT32") := by decide

/-- C1: after a successful allocation (non-empty device handle
"/dev/disk5"), a failure of the format step in which diskutil cannot be
spawned returns an error with NO detach issued — the claimed exactly-one
detach does not happen on this failure path. -/
theorem C1_format_spawn_failure_skips_cleanup :
    create_ramdisk
      { size := "1M", name := "RAMDisk", filesystem := "apfs", verbose := false }
      { mountExistsPre := false,
        attach := .ok { success := true, stdout := some "/dev/disk5\n", stderr := some "" },
        diskutil := .error "entity not found",
        mountExistsAt := fun _ => false,
        verifyExists := false } =
      (.error "Failed to execute diskutil: entity not found", []) ∧
    rustTrim "/dev/disk5\n" = "/dev/disk5" := by
  constructor
  · decide
  · decide

/-- C4: `get_diskutil_format` maps each alias (case-insensitively) to its
canonical label and fails on every other token with a message containing
the original token and the list of supported aliases. -/
theorem C4_filesystem_resolver :
    (∀ s, rustToLower s = "apfs" → get_diskutil_format s = .ok "APFS") ∧
    (∀ s, rustToLower s = "hfs+" ∨ rustToLower s = "hfs" →
      get_diskutil_format s = .ok "HFS+") ∧
    (∀ s, rustToLower s = "fat32" ∨ rustToLower s = "msdos" →
      get_diskutil_format s = .ok "MS-DOS FAT32") ∧
    (∀ s, rustToLower s = "exfat" → get_diskutil_format s = .ok "ExFAT") ∧
    (∀ s, ¬(rustToLower s = "apfs" ∨ rustToLower s = "hfs+" ∨ rustToLower s = "hfs" ∨
        rustToLower s = "fat32" ∨ rustToLower s = "msdos" ∨ rustToLower s = "exfat") →
      ∃ msg, get_diskutil_format s = .error msg ∧
        (∃ a b, msg = a ++ s ++ b) ∧
        (∃ a b, msg = a ++ "apfs, hfs+, fat32, exfat" ++ b)) := by
  refine ⟨?_, ?_, ?_, ?_, ?_⟩
  · intro s h; simp [get_diskutil_format, h]
  · intro s h; rcases h with h | h <;> simp [get_diskutil_format, h]
  · intro s h; rcases h with h | h <;> simp [get_diskutil_format, h]
  · intro s h; simp [get_diskutil_format, h]
  · intro s h
    push_neg at h
    obtain ⟨h1, h2, h3, h4, h5, h6⟩ := h
    refine ⟨unsupportedFsMsg s, by simp [get_diskutil_format, h1, h2, h3, h4, h5, h6],
      ⟨"Unsupported filesystem: ",
        "\nSupported filesystems: apfs, hfs+, fat32, exfat", rfl⟩,
      ⟨"Unsupported filesystem: " ++ s ++ "\nSupported filesystems: ", "", ?_⟩⟩
    have hlit : "\nSupported filesystems: " ++ "apfs, hfs+, fat32, exfat" =
        "\nSupported filesystems: apfs, hfs+, fat32, exfat" := by decide
    rw [String.append_empty, String.append_assoc, hlit]
    rfl

/-- C4 witness: the alias clause at "ApFs" and the failure clause at
"ntfs". -/
theorem C4_filesystem_resolver_witness :
    get_diskutil_format "ApFs" = .ok "APFS" ∧
    ∃ msg, get_diskutil_format "ntfs" = .error msg ∧
      (∃ a b, msg = a ++ "ntfs" ++ b) ∧
      (∃ a b, msg = a ++ "apfs, hfs+, fat32, exfat" ++ b) :=
  ⟨C4_filesystem_resolver.1 "ApFs" (by decide),
    C4_filesystem_resolver.2.2.2.2 "ntfs" (by decide)⟩

/-- Helper: full characterization of when `size_to_sectors` fails. -/
lemma size_to_sectors_err_iff (s : String) :
    exceptIsOk (size_to_sectors s) = false ↔
      parseRustU64 (numberPart s) = none ∨
      parseRustU64 (numberPart s) = some 0 ∨
      unitMultiplier (suffixPart s) = none ∨
      (∃ n m, parseRustU64 (numberPart s) = some n ∧
        unitMultiplier (suffixPart s) = some m ∧
        (2 ^ 64 ≤ n * m ∨ n * m / 512 = 0)) := by
  rcases hp : parseRustU64 (numberPart s) with _ | n
  · simp [size_to_sectors, hp, exceptIsOk]
  · by_cases hz : n = 0
    · subst hz
      simp [size_to_sectors, hp, exceptIsOk]
    · rcases hm : unitMultiplier (suffixPart s) with _ | m
      · simp [size_to_sectors, hp, hm, hz, exceptIsOk]
      · by_cases ho : n * m < 2 ^ 64
        · by_cases h0 : n * m / 512 = 0
          · refine iff_of_true ?_ (Or.inr (Or.inr (Or.inr ⟨n, m, rfl, rfl, Or.inr h0⟩)))
            simp only [size_to_sectors, hp, hm]
            rw [if_neg hz, if_pos ho, if_pos h0]
            rfl
          · refine iff_of_false ?_ ?_
            · simp only [size_to_sectors, hp, hm]
              rw [if_neg hz, if_pos ho, if_neg h0]
              simp [exceptIsOk]
            · rintro (h | h | h | ⟨n', m', hp', hm', hor⟩)
              · cases h
              · exact hz (Option.some.inj h)
              · cases h
              · obtain rfl := Option.some.inj hp'
                obtain rfl := Option.some.inj hm'
                rcases hor with hor | hor
                · exact absurd hor (not_le.mpr ho)
                · exact h0 hor
        · refine iff_of_true ?_
            (Or.inr (Or.inr (Or.inr ⟨n, m, rfl, rfl, Or.inl (le_of_not_lt ho)⟩)))
          simp only [size_to_sectors, hp, hm]
          rw [if_neg hz, if_neg ho]
          rfl

/-- C3: `size_to_sectors` fails exactly when the number part does not parse,
parses to zero, the suffix is unrecognized, the multiplication leaves the
`u64` range, or the sector count is zero; in particular every request of
1 to 511 bytes is rejected, never rounded up. -/
theorem C3_size_parser_failure_cases :
    (∀ s, exceptIsOk (size_to_sectors s) = false ↔
      parseRustU64 (numberPart s) = none ∨
      parseRustU64 (numberPart s) = some 0 ∨
      unitMultiplier (suffixPart s) = none ∨
      (∃ n m, parseRustU64 (numberPart s) = some n ∧
        unitMultiplier (suffixPart s) = some m ∧
        (2 ^ 64 ≤ n * m ∨ n * m / 512 = 0))) ∧
    (∀ s n m, parseRustU64 (numberPart s) = some n →
      unitMultiplier (suffixPart s) = some m → 1 ≤ n * m → n * m ≤ 511 →
      exceptIsOk (size_to_sectors s) = false) := by
  refine ⟨size_to_sectors_err_iff, ?_⟩
  intro s n m hp hm _h1 h511
  exact (size_to_sectors_err_iff s).mpr
    (Or.inr (Or.inr (Or.inr ⟨n, m, hp, hm, Or.inr (Nat.div_eq_of_lt (by omega))⟩)))

/-- C3 witness: a 511-byte request ("511", bytes in [1, 511]) is rejected. -/
theorem C3_size_parser_failure_cases_witness :
    exceptIsOk (size_to_sectors "511") = false :=
  C3_size_parser_failure_cases.2 "511" 511 1 (by decide) (by decide) (by decide) (by decide)

/-- Helper: the early validation and the format-step lookup accept exactly
the same tokens. -/
lemma validate_agrees_format (t : String) :
    exceptIsOk (validate_filesystem t) = exceptIsOk (get_diskutil_format t) := by
  by_cases h1 : rustToLower t = "apfs" <;>
  by_cases h2 : rustToLower t = "hfs+" <;>
  by_cases h3 : rustToLower t = "hfs" <;>
  by_cases h4 : rustToLower t = "fat32" <;>
  by_cases h5 : rustToLower t = "msdos" <;>
  by_cases h6 : rustToLower t = "exfat" <;>
  simp [validate_filesystem, get_diskutil_format, exceptIsOk, h1, h2, h3, h4, h5, h6]

/-- C6: `validate_filesystem` succeeds exactly when `get_diskutil_format`
succeeds, so the `get_diskutil_format` call inside `create_ramdisk` cannot
fail for a config accepted by `parse_args`. -/
theorem C6_early_validation_agrees :
    (∀ t, exceptIsOk (validate_filesystem t) = exceptIsOk (get_diskutil_format t)) ∧
    (∀ args cfg, parse_args args = .ok cfg →
      exceptIsOk (get_diskutil_format cfg.filesystem) = true) := by
  refine ⟨validate_agrees_format, ?_⟩
  intro args cfg h
  unfold parse_args at h
  split at h
  next => simp at h
  next => simp at h
  next config heq0 =>
    split at h
    next => simp at h
    next hsz =>
      split at h
      next e heq => simp at h
      next u heq =>
        have hcfg : cfg = { config with name := sanitize_volume_name config.name } := by
          simpa using h.symm
        rw [hcfg]
        show exceptIsOk (get_diskutil_format config.filesystem) = true
        rw [← validate_agrees_format, heq]
        rfl

/-- C6 witness: the second clause at the argument list ["1G"]. -/
theorem C6_early_validation_agrees_witness :
    exceptIsOk (get_diskutil_format
      (Config.mk "1G" "RAMDisk" "apfs" false).filesystem) = true :=
  C6_early_validation_agrees.2 ["1G"] (Config.mk "1G" "RAMDisk" "apfs" false) (by decide)

/-- Helper: `trimList` is Mathlib's `rdropWhile` after `dropWhile`. -/
lemma trimList_eq (l : List Char) :
    trimList l = (l.dropWhile Char.isWhitespace).rdropWhile Char.isWhitespace := rfl

/-- Helper: every character of `trimList l` occurs in `l`. -/
lemma mem_of_mem_trimList {l : List Char} {c : Char} (h : c ∈ trimList l) : c ∈ l := by
  rw [trimList_eq] at h
  exact (List.dropWhile_suffix _).sublist.subset
    ((List.rdropWhile_prefix _ _).sublist.subset h)

/-- Helper: `trimList l` is a sublist of `l`. -/
lemma trimList_sublist (l : List Char) : List.Sublist (trimList l) l := by
  rw [trimList_eq]
  exact (List.rdropWhile_prefix _ _).sublist.trans (List.dropWhile_suffix _).sublist

/-- Helper: the head of a `dropWhile p` result never satisfies `p`. -/
lemma head?_dropWhile_no (p : Char → Bool) (l : List Char) {c : Char}
    (h : (l.dropWhile p).head? = some c) : p c = false := by
  induction l with
  | nil => cases h
  | cons a t ih =>
    by_cases hp : p a
    · rw [List.dropWhile_cons_of_pos hp] at h; exact ih h
    · rw [List.dropWhile_cons_of_neg hp] at h
      obtain rfl : a = c := by simpa using h
      simpa using hp

/-- Helper: a nonempty prefix has the same head. -/
lemma head?_of_front {x y : List Char} {c : Char}
    (hp : List.IsPrefix x y) (h : x.head? = some c) : y.head? = some c := by
  obtain ⟨t, rfl⟩ := hp
  cases x with
  | nil => cases h
  | cons a s => simpa using h

/-- Helper: the head of a trimmed list is not whitespace. -/
lemma trimList_head?_not_ws {l : List Char} {c : Char}
    (h : (trimList l).head? = some c) : c.isWhitespace = false := by
  rw [trimList_eq] at h
  exact head?_dropWhile_no _ l (head?_of_front (List.rdropWhile_prefix _ _) h)

/-- Helper: the last character of a trimmed list is not whitespace. -/
lemma trimList_getLast?_not_ws {l : List Char} {c : Char}
    (h : (trimList l).getLast? = some c) : c.isWhitespace = false := by
  rw [trimList_eq, List.rdropWhile, List.getLast?_reverse] at h
  exact head?_dropWhile_no _ _ h

/-- Helper: trimming an already-trimmed list is a no-op. -/
lemma trimList_idem (l : List Char) : trimList (trimList l) = trimList l := by
  rw [trimList_eq, trimList_eq]
  have h1 : ((l.dropWhile Char.isWhitespace).rdropWhile Char.isWhitespace).dropWhile
      Char.isWhitespace = (l.dropWhile Char.isWhitespace).rdropWhile Char.isWhitespace := by
    rcases hx : ((l.dropWhile Char.isWhitespace).rdropWhile Char.isWhitespace) with _ | ⟨a, t⟩
    · rfl
    · have ha : Char.isWhitespace a = false := by
        have : ((l.dropWhile Char.isWhitespace).rdropWhile Char.isWhitespace).head? =
            some a := by rw [hx]; rfl
        exact head?_dropWhile_no _ l
          (head?_of_front (List.rdropWhile_prefix _ _) this)
      rw [List.dropWhile_cons_of_neg (by simp [ha])]
  rw [h1, List.rdropWhile_idempotent]

/-- C7: `sanitize_volume_name` keeps only alphanumerics, space, hyphen and
underscore; characters are dropped (the result is a sublist of the input),
the result is trimmed at both ends, the function is idempotent, and an
all-invalid input yields the empty string. -/
theorem C7_sanitize_volume_name_props :
    (∀ s, ∀ c ∈ (sanitize_volume_name s).data, validNameChar c = true) ∧
    (∀ s, List.Sublist (sanitize_volume_name s).data s.data) ∧
    (∀ s, sanitize_volume_name (sanitize_volume_name s) = sanitize_volume_name s) ∧
    (∀ s c, (sanitize_volume_name s).data.head? = some c → c.isWhitespace = false) ∧
    (∀ s c, (sanitize_volume_name s).data.getLast? = some c → c.isWhitespace = false) ∧
    (∀ s, (∀ c ∈ s.data, validNameChar c = false) → sanitize_volume_name s = "") := by
  refine ⟨?_, ?_, ?_, ?_, ?_, ?_⟩
  · intro s c hc
    exact List.of_mem_filter (mem_of_mem_trimList hc)
  · intro s
    exact (trimList_sublist _).trans (List.filter_sublist s.data)
  · intro s
    unfold sanitize_volume_name
    apply congrArg String.mk
    show trimList ((trimList (s.data.filter validNameChar)).filter validNameChar) =
      trimList (s.data.filter validNameChar)
    have h1 : (trimList (s.data.filter validNameChar)).filter validNameChar =
        trimList (s.data.filter validNameChar) :=
      List.filter_eq_self.mpr fun a ha => List.of_mem_filter (mem_of_mem_trimList ha)
    rw [h1, trimList_idem]
  · intro s c h
    exact trimList_head?_not_ws h
  · intro s c h
    exact trimList_getLast?_not_ws h
  · intro s h
    unfold sanitize_volume_name
    have hf : s.data.filter validNameChar = [] :=
      List.filter_eq_nil_iff.mpr fun a ha => by simp [h a ha]
    rw [hf]
    rfl

/-- C7 witness: the clauses of the sanitizer theorem at concrete labels. -/
theorem C7_sanitize_volume_name_props_witness :
    validNameChar 'T' = true ∧
    sanitize_volume_name (sanitize_volume_name "Test/Disk") =
      sanitize_volume_name "Test/Disk" ∧
    Char.isWhitespace 'a' = false ∧
    sanitize_volume_name "!!!" = "" :=
  ⟨C7_sanitize_volume_name_props.1 "Test/Disk" 'T' (by decide),
    C7_sanitize_volume_name_props.2.2.1 "Test/Disk",
    C7_sanitize_volume_name_props.2.2.2.1 " a " 'a' (by decide),
    C7_sanitize_volume_name_props.2.2.2.2.2 "!!!" (by decide)⟩

/-- Helper: a non-dash argument takes the positional branch of the loop. -/
lemma parseLoop_positional (a : String) (rest : List String) (c : Config)
    (h : startsWithDash a = false) :
    parseLoop (a :: rest) c =
      if c.size = "" then parseLoop rest { c with size := a }
      else if c.name = "RAMDisk" then parseLoop rest { c with name := a }
      else .fail "Too many arguments" := by
  have h1 : ¬(a = "-h" ∨ a = "--help") := by
    rintro (rfl | rfl) <;> exact absurd h (by decide)
  have h2 : ¬(a = "-v" ∨ a = "--verbose") := by
    rintro (rfl | rfl) <;> exact absurd h (by decide)
  have h3 : ¬(a = "-f" ∨ a = "--format") := by
    rintro (rfl | rfl) <;> exact absurd h (by decide)
  rw [parseLoop.eq_def]
  dsimp only
  rw [if_neg h1, if_neg h2, if_neg h3, h]
  rfl

/-- C8 counterexample: a third positional token does NOT fail when the
second positional is the literal default name "RAMDisk" — it silently
becomes the name. -/
theorem C8_third_positional_counterexample :
    parse_args ["1G", "RAMDisk", "Extra"] =
      .ok { size := "1G", name := "Extra", filesystem := "apfs", verbose := false } := by
  decide

/-- C8 amended: the first positional is the size; each later positional
replaces the name when the current name is "RAMDisk" and otherwise fails
with "Too many arguments" — so three positionals fail exactly when the
second is not the literal "RAMDisk"; one positional keeps the default name
"RAMDisk"; an empty argument list fails. -/
theorem C8_positional_arity_amended :
    (∀ x y z, startsWithDash x = false → x ≠ "" →
      startsWithDash y = false → y ≠ "RAMDisk" → startsWithDash z = false →
      parse_args [x, y, z] = .error "Too many arguments") ∧
    (∀ x z, startsWithDash x = false → x ≠ "" → startsWithDash z = false →
      parse_args [x, "RAMDisk", z] =
        .ok { size := x, name := sanitize_volume_name z,
              filesystem := "apfs", verbose := false }) ∧
    (∀ x, startsWithDash x = false → x ≠ "" →
      parse_args [x] =
        .ok { size := x, name := "RAMDisk", filesystem := "apfs", verbose := false }) ∧
    parse_args [] = .error "Size argument is required" := by
  have hv : validate_filesystem "apfs" = .ok () := by decide
  have hsan : sanitize_volume_name "RAMDisk" = "RAMDisk" := by decide
  refine ⟨?_, ?_, ?_, by decide⟩
  · intro x y z hx hx0 hy hy2 hz
    have s1 : parseLoop [x, y, z] Config.defaultCfg =
        parseLoop [y, z] { Config.defaultCfg with size := x } := by
      rw [parseLoop_positional x _ _ hx]
      rfl
    have s2 : parseLoop [y, z] { Config.defaultCfg with size := x } =
        parseLoop [z] { Config.defaultCfg with size := x, name := y } := by
      rw [parseLoop_positional y _ _ hy]
      simp [Config.defaultCfg, hx0]
    have s3 : parseLoop [z] { Config.defaultCfg with size := x, name := y } =
        .fail "Too many arguments" := by
      rw [parseLoop_positional z _ _ hz]
      simp [Config.defaultCfg, hx0, hy2]
    unfold parse_args
    rw [s1, s2, s3]
  · intro x z hx hx0 hz
    have s1 : parseLoop [x, "RAMDisk", z] Config.defaultCfg =
        parseLoop [z] { Config.defaultCfg with size := x, name := "RAMDisk" } := by
      rw [parseLoop_positional x _ _ hx, parseLoop_positional "RAMDisk" _ _ (by decide)]
      simp [Config.defaultCfg, hx0]
    have s2 : parseLoop [z] { Config.defaultCfg with size := x, name := "RAMDisk" } =
        .done { Config.defaultCfg with size := x, name := z } := by
      rw [parseLoop_positional z _ _ hz]
      simp [Config.defaultCfg, hx0]
      rfl
    unfold parse_args
    rw [s1, s2]
    simp [Config.defaultCfg, hx0, hv]
  · intro x hx hx0
    have s1 : parseLoop [x] Config.defaultCfg =
        .done { Config.defaultCfg with size := x } := by
      rw [parseLoop_positional x _ _ hx]
      rfl
    unfold parse_args
    rw [s1]
    simp [Config.defaultCfg, hx0, hv, hsan]

/-- C8 amended witness: three plain positionals fail. -/
theorem C8_positional_arity_amended_witness :
    parse_args ["1G", "A", "B"] = .error "Too many arguments" :=
  C8_positional_arity_amended.1 "1G" "A" "B" (by decide) (by decide) (by decide)
    (by decide) (by decide)

/-- Helper: one unfolding of the polling loop. -/
lemma waitLoop_succ (e : Nat → Bool) (i n : Nat) :
    waitLoop e i (n + 1) = if e i then true else waitLoop e (i + 1) n := rfl

/-- Helper: one unfolding of the instrumented polling loop. -/
lemma waitChecksLoop_succ (e : Nat → Bool) (i n : Nat) :
    waitChecksLoop e i n.succ = if e i then 1 else 1 + waitChecksLoop e (i + 1) n := rfl

/-- Helper: the polling loop detects a mount iff some attempt within the
budget sees the path. -/
lemma waitLoop_true_iff (e : Nat → Bool) :
    ∀ (n i : Nat), waitLoop e i n = true ↔ ∃ k, k < n ∧ e (i + k) = true := by
  intro n
  induction n with
  | zero =>
    intro i
    simp [waitLoop]
  | succ n ih =>
    intro i
    by_cases hei : e i = true
    · rw [waitLoop_succ, if_pos hei]
      exact iff_of_true rfl ⟨0, Nat.succ_pos n, by simpa using hei⟩
    · rw [waitLoop_succ, if_neg hei, ih (i + 1)]
      constructor
      · rintro ⟨k, hk, hke⟩
        exact ⟨k + 1, by omega, by rw [show i + (k + 1) = i + 1 + k by omega]; exact hke⟩
      · rintro ⟨k, hk, hke⟩
        rcases k with _ | k
        · exact absurd (by simpa using hke) hei
        · exact ⟨k, by omega, by rw [show i + 1 + k = i + (k + 1) by omega]; exact hke⟩

/-- Helper: the loop never performs more checks than the attempt budget. -/
lemma waitChecksLoop_le (e : Nat → Bool) : ∀ (n i : Nat), waitChecksLoop e i n ≤ n := by
  intro n
  induction n with
  | zero => intro i; simp [waitChecksLoop]
  | succ n ih =>
    intro i
    rw [waitChecksLoop_succ]
    by_cases hei : e i = true
    · rw [if_pos hei]; omega
    · rw [if_neg hei]; have := ih (i + 1); omega

/-- Helper: the loop stops at the first attempt that sees the path,
having performed that attempt index plus one checks. -/
lemma waitLoop_first_detection (e : Nat → Bool) :
    ∀ (n i j : Nat), j < n → e (i + j) = true → (∀ k, k < j → e (i + k) = false) →
      waitChecksLoop e i n = j + 1 ∧ waitLoop e i n = true := by
  intro n
  induction n with
  | zero =>
    intro i j hj _ _
    exact absurd hj (Nat.not_lt_zero j)
  | succ n ih =>
    intro i j hj hje hbefore
    by_cases hei : e i = true
    · have hj0 : j = 0 := by
        by_contra hne
        have h0 : e i = false := by simpa using hbefore 0 (Nat.pos_of_ne_zero hne)
        rw [h0] at hei
        exact absurd hei (by simp)
      subst hj0
      exact ⟨by rw [waitChecksLoop_succ, if_pos hei], by rw [waitLoop_succ, if_pos hei]⟩
    · rcases j with _ | j
      · exact absurd (by simpa using hje) hei
      · have hje2 : e (i + 1 + j) = true := by
          rw [show i + 1 + j = i + (j + 1) by omega]; exact hje
        have hb2 : ∀ k, k < j → e (i + 1 + k) = false := by
          intro k hk
          rw [show i + 1 + k = i + (k + 1) by omega]
          exact hbefore (k + 1) (by omega)
        obtain ⟨hc, hl⟩ := ih (i + 1) j (by omega) hje2 hb2
        constructor
        · rw [waitChecksLoop_succ, if_neg hei, hc]; omega
        · rw [waitLoop_succ, if_neg hei]; exact hl

/-- C9: `wait_for_mount` performs at most `max_attempts` existence checks,
returns true exactly when some attempt within the budget sees the path
(stopping at the first such attempt), returns false when none does, and
the orchestrator invokes it with a budget of 50 attempts. -/
theorem C9_wait_for_mount_bounded :
    (∀ e m, wait_for_mount e m = true ↔ ∃ i, i < m ∧ e i = true) ∧
    (∀ e m, wait_for_mount_checks e m ≤ m) ∧
    (∀ e m i, i < m → e i = true → (∀ j, j < i → e j = false) →
      wait_for_mount_checks e m = i + 1 ∧ wait_for_mount e m = true) ∧
    (∀ config env out so,
      exceptIsOk (size_to_sectors config.size) = true →
      env.mountExistsPre = false →
      env.attach = .ok out → out.success = true → out.stdout = some so →
      rustTrim so ≠ "" →
      exceptIsOk (get_diskutil_format config.filesystem) = true →
      (∃ fout, env.diskutil = .ok fout ∧ fout.success = true) →
      wait_for_mount env.mountExistsAt 50 = false →
      create_ramdisk config env =
        (.error "RAM disk was formatted but failed to mount properly",
          cleanup_device (rustTrim so))) := by
  refine ⟨?_, ?_, ?_, ?_⟩
  · intro e m
    simpa [wait_for_mount] using waitLoop_true_iff e m 0
  · intro e m
    exact waitChecksLoop_le e m 0
  · intro e m i hi hei hb
    have := waitLoop_first_detection e m 0 i hi (by simpa using hei)
      (by intro k hk; simpa using hb k hk)
    simpa [wait_for_mount, wait_for_mount_checks] using this
  · intro config env out so hsz hpre hatt hsucc hso hdev hfs hdisk hw
    obtain ⟨sec, hsec⟩ : ∃ a, size_to_sectors config.size = .ok a := by
      rcases hx : size_to_sectors config.size with m | a
      · simp [exceptIsOk, hx] at hsz
      · exact ⟨a, rfl⟩
    obtain ⟨lbl, hlbl⟩ : ∃ a, get_diskutil_format config.filesystem = .ok a := by
      rcases hx : get_diskutil_format config.filesystem with m | a
      · simp [exceptIsOk, hx] at hfs
      · exact ⟨a, rfl⟩
    obtain ⟨fout, hdisk1, hdisk2⟩ := hdisk
    unfold create_ramdisk
    simp [hsec, hpre, hatt, hsucc, hso, hdev, hlbl, hdisk1, hdisk2, hw]

/-- C9 witness: the orchestrator clause at a concrete run whose mount
never appears within the 50-attempt budget. -/
theorem C9_wait_for_mount_bounded_witness :
    create_ramdisk
      { size := "1M", name := "RAMDisk", filesystem := "apfs", verbose := false }
      { mountExistsPre := false,
        attach := .ok { success := true, stdout := some "/dev/disk9\n", stderr := some "" },
        diskutil := .ok { success := true, stdout := some "", stderr := some "" },
        mountExistsAt := fun _ => false,
        verifyExists := false } =
      (.error "RAM disk was formatted but failed to mount properly",
        cleanup_device (rustTrim "/dev/disk9\n")) :=
  C9_wait_for_mount_bounded.2.2.2
    { size := "1M", name := "RAMDisk", filesystem := "apfs", verbose := false }
    { mountExistsPre := false,
      attach := .ok { success := true, stdout := some "/dev/disk9\n", stderr := some "" },
      diskutil := .ok { success := true, stdout := some "", stderr := some "" },
      mountExistsAt := fun _ => false,
      verifyExists := false }
    { success := true, stdout := some "/dev/disk9\n", stderr := some "" }
    "/dev/disk9\n"
    (by decide) rfl rfl rfl rfl (by decide) (by decide)
    ⟨{ success := true, stdout := some "", stderr := some "" }, rfl, rfl⟩ (by decide)

end Mkramdisk
